import Mathlib

/-!
Shallow embedding of the Host Availability & Metrics Reconciliation Engine
of `src/server/zabbix-api.ts`, together with theorems checking the
specification's claims about it.

The first section models the JavaScript primitives the source relies on
(`parseFloat`, `parseInt`, `String.prototype.trim`, `toLowerCase`,
`includes`, truthiness of the `||` operator).  JavaScript numbers are
modelled as exact rationals extended with the two infinities; `NaN` is
modelled as `none` of an `Option`, which matches how the source only ever
inspects numbers through `isNaN` and comparisons (every comparison with
`NaN` is false).  The `Infinity` literal of `parseFloat` is represented
explicitly so that sign tests on parsed values are faithful.
-/

namespace ZabbixApi

/-- A parsed JavaScript number that is not `NaN`: a finite rational or one
of the infinities. -/
inductive JsNum where
  | finite (q : Rat)
  | posInf
  | negInf
deriving DecidableEq, Repr

/-- The test `n > 0` of the source, on a non-`NaN` JavaScript number.  A
rational is positive exactly when its numerator is (the denominator of a
`Rat` is always positive). -/
def JsNum.isPos : JsNum → Bool
  | .finite q => 0 < q.num
  | .posInf => true
  | .negInf => false

/-- JavaScript whitespace characters recognised by `parseFloat`/`parseInt`
and `trim` (the ASCII ones; the source only ever feeds ASCII values). -/
def isJsWs (c : Char) : Bool :=
  c = ' ' || c = '\t' || c = '\n' || c = '\r' || c = '\x0b' || c = '\x0c'

/-- Does the first list start with the second one? -/
def listStartsWith : List Char → List Char → Bool
  | _, [] => true
  | [], _ :: _ => false
  | c :: cs, d :: ds => c = d && listStartsWith cs ds

/-- Does the list contain the pattern as a contiguous sublist? -/
def listHasSub : List Char → List Char → Bool
  | s, pat =>
    listStartsWith s pat ||
      match s with
      | [] => false
      | _ :: t => listHasSub t pat

/-- Model of JavaScript `String.prototype.includes`. -/
def strContains (s pat : String) : Bool :=
  listHasSub s.data pat.data

/-- Model of JavaScript `String.prototype.startsWith`. -/
def strStartsWith (s pat : String) : Bool :=
  listStartsWith s.data pat.data

/-- Model of JavaScript `String.prototype.toLowerCase` (ASCII range). -/
def jsToLower (s : String) : String :=
  ⟨s.data.map Char.toLower⟩

/-- Model of JavaScript `String.prototype.trim`. -/
def jsTrim (s : String) : String :=
  ⟨((s.data.dropWhile isJsWs).reverse.dropWhile isJsWs).reverse⟩

/-- Model of the JavaScript idiom `v || d` for an optional string `v`:
`undefined`, `null` and the empty string are falsy and select `d`. -/
def jsOrStr (v : Option String) (d : String) : String :=
  match v with
  | some s => if s = "" then d else s
  | none => d

/-- Splits a leading run of decimal digits off a character list. -/
def takeDigits : List Char → List Char × List Char
  | [] => ([], [])
  | c :: cs =>
    if c.isDigit then
      let (d, r) := takeDigits cs
      (c :: d, r)
    else ([], c :: cs)

/-- Numeric value of a list of decimal digits. -/
def digitsToNat (ds : List Char) : Nat :=
  ds.foldl (fun n c => 10 * n + (c.toNat - '0'.toNat)) 0

/-- Reads an optional leading sign; returns `true` for `-`. -/
def takeSign : List Char → Bool × List Char
  | '-' :: r => (true, r)
  | '+' :: r => (false, r)
  | cs => (false, cs)

/-- The optional exponent part of a `parseFloat` literal: if the input
starts with `e`/`E` followed by at least one digit (after an optional
sign), its value; otherwise `0`, because `parseFloat` takes the longest
valid literal prefix and ignores a dangling exponent marker. -/
def parseExponent (cs : List Char) : Int :=
  match cs with
  | e :: r =>
    if e = 'e' || e = 'E' then
      let (esign, r') := takeSign r
      let (eds, _) := takeDigits r'
      if eds = [] then 0
      else if esign then -(digitsToNat eds : Int) else (digitsToNat eds : Int)
    else 0
  | [] => 0

/-- Model of JavaScript `parseFloat`: skip whitespace, optional sign, then
either the `Infinity` literal or a decimal literal `digits [. digits]
[exponent]` with at least one digit; trailing garbage is ignored; `none`
models `NaN`.  The value `intpart.fracpart × 10^exp` is assembled as the
single rational `digits(intpart ++ fracpart) × 10^(exp − |fracpart|)`,
built with `mkRat` so that the whole parse stays a plain computation. -/
def parseFloatJs (s : String) : Option JsNum :=
  let cs := s.data.dropWhile isJsWs
  let (sign, cs) := takeSign cs
  if listStartsWith cs "Infinity".data then
    some (if sign then .negInf else .posInf)
  else
    let (intDs, r1) := takeDigits cs
    let (fracDs, r2) :=
      match r1 with
      | '.' :: r => takeDigits r
      | _ => ([], r1)
    if intDs = [] && fracDs = [] then none
    else
      let mantNum : Nat := digitsToNat (intDs ++ fracDs)
      let e : Int := parseExponent r2 - (fracDs.length : Int)
      let mag : Rat :=
        if 0 ≤ e then mkRat ((mantNum * 10 ^ e.toNat : Nat) : Int) 1
        else mkRat (mantNum : Int) (10 ^ (-e).toNat)
      some (.finite (if sign then -mag else mag))

/-- Hexadecimal digit test. -/
def isHexDigit (c : Char) : Bool :=
  c.isDigit || ('a' ≤ c && c ≤ 'f') || ('A' ≤ c && c ≤ 'F')

/-- Splits a leading run of hexadecimal digits off a character list. -/
def takeHexDigits : List Char → List Char × List Char
  | [] => ([], [])
  | c :: cs =>
    if isHexDigit c then
      let (d, r) := takeHexDigits cs
      (c :: d, r)
    else ([], c :: cs)

/-- Numeric value of one hexadecimal digit. -/
def hexDigitVal (c : Char) : Nat :=
  if c.isDigit then c.toNat - '0'.toNat
  else if 'a' ≤ c && c ≤ 'f' then c.toNat - 'a'.toNat + 10
  else c.toNat - 'A'.toNat + 10

/-- Numeric value of a list of hexadecimal digits. -/
def hexToNat (ds : List Char) : Nat :=
  ds.foldl (fun n c => 16 * n + hexDigitVal c) 0

/-- Model of JavaScript `parseInt` with no radix argument: skip
whitespace, optional sign, then either a `0x`/`0X` hexadecimal literal or
a decimal digit run; `none` models `NaN`. -/
def parseIntJs (s : String) : Option Int :=
  let cs := s.data.dropWhile isJsWs
  let (sign, cs) := takeSign cs
  let natVal : Option Nat :=
    match cs with
    | '0' :: x :: r =>
      if x = 'x' || x = 'X' then
        let (hds, _) := takeHexDigits r
        if hds = [] then none else some (hexToNat hds)
      else
        let (dds, _) := takeDigits ('0' :: x :: r)
        if dds = [] then none else some (digitsToNat dds)
    | _ =>
      let (dds, _) := takeDigits cs
      if dds = [] then none else some (digitsToNat dds)
  match natVal with
  | some n => some (if sign then -(n : Int) else (n : Int))
  | none => none

/-!
The data model: remote telemetry items, host interfaces and the probe.
Fields that the JSON API may omit are `Option`s; `status` and `lastclock`
arrive as strings (the source's `i.status === '0' || i.status === 0`
check accepts both spellings of the enabled code, which collapse to the
string `"0"` here).
-/

/-- One remote telemetry item as consumed by the hosts endpoint
(`item.get` output fields). -/
structure Item where
  key_ : Option String
  name : Option String
  lastvalue : Option String
  status : String
  lastclock : Option String
deriving DecidableEq, Repr

/-- One host interface record (only the `available` flag matters to the
availability logic). -/
structure Interface where
  available : Option String
deriving DecidableEq, Repr

/-- Outcome of running the system ping command: the process succeeded
with some stdout, or executing it failed (rejected promise — unreachable
host, missing ping binary, timeout alike land here). -/
inductive ProbeOutcome where
  | success (stdout : String)
  | execFailure
deriving DecidableEq, Repr

/-- Embedding of `pingHost` (zabbix-api.ts lines 64–84): any execution
failure is caught and reported as `false`; on success the stdout is
searched for the platform's success text.  The function is total: the
prober never raises. -/
def pingHost (isWindows : Bool) (o : ProbeOutcome) : Bool :=
  match o with
  | .execFailure => false
  | .success stdout =>
    if isWindows then
      strContains stdout "Reply from" || strContains stdout "bytes="
    else
      strContains stdout "1 received" || strContains stdout "1 packets received"

/-- Embedding of the `directPingStatus` assignment of the hosts endpoint
(lines 292–307): ping only when the first interface IP is truthy and not
`"N/A"`.  The source's `catch` branch assigning `"error"` is dead code
because `pingHost` is total, so it does not appear here. -/
def directPingStatusOf (ip : Option String) (isWindows : Bool) (o : ProbeOutcome) : String :=
  match ip with
  | some a =>
    if a ≠ "" && a ≠ "N/A" then
      if pingHost isWindows o then "responding" else "no response"
    else "no ip"
  | none => "no ip"

/-- The ICMP item predicate of the hosts endpoint (lines 346–359): one
disjunction over key and name tests, restricted to enabled items. -/
def icmpFindPred (i : Item) : Bool :=
  let key := jsToLower (jsOrStr i.key_ "")
  let name := jsToLower (jsOrStr i.name "")
  let isEnabled := i.status = "0"
  isEnabled &&
    (key = "icmpping" ||
     key = "icmpping[]" ||
     strStartsWith key "icmpping[" ||
     strContains key "icmp" ||
     strContains name "icmp ping" ||
     strContains name "ping response" ||
     strContains name "icmp response")

/-- The agent item predicate of the hosts endpoint (lines 411–424). -/
def agentFindPred (i : Item) : Bool :=
  let key := jsToLower (jsOrStr i.key_ "")
  let name := jsToLower (jsOrStr i.name "")
  let isEnabled := i.status = "0"
  isEnabled &&
    (key = "agent.ping" ||
     key = "agent.ping[]" ||
     strStartsWith key "agent.ping[" ||
     strContains key "agent.ping" ||
     strContains name "agent ping" ||
     strContains name "zabbix agent ping" ||
     strContains name "agent availability")

/-- Value coercion shared by the ICMP branch (lines 381–398, with
`pos := "responding"`, `neg := "no response"`) and the agent branch
(lines 446–463, with `pos := "available"`, `neg := "unavailable"`):
numeric parse first, token match only when the parse is `NaN`. -/
def coerceValue (pos neg : String) (raw : String) : String :=
  let strValue := jsTrim raw
  match parseFloatJs strValue with
  | some n => if n.isPos then pos else neg
  | none =>
    if strValue = "1" || jsToLower strValue = "up" then pos
    else if strValue = "0" || jsToLower strValue = "down" then neg
    else "unknown"

/-- Embedding of the freshness check (lines 373–376 and 438–441):
`parseInt(item.lastclock || '0')` and `now - lastUpdate < 600`; a `NaN`
timestamp makes every comparison false, hence not recent. -/
def itemIsRecent (it : Item) (now : Int) : Bool :=
  match parseIntJs (jsOrStr it.lastclock "0") with
  | some lastUpdate => now - lastUpdate < 600
  | none => false

/-- Embedding of the per-item signal resolution (lines 381–402 / 446–467):
a present non-empty value is coerced regardless of age; otherwise the
signal is `"no data"` when recent and `"stale data"` when not. -/
def resolveItemStatus (pos neg : String) (it : Item) (now : Int) : String :=
  let isRecent := itemIsRecent it now
  match it.lastvalue with
  | some v =>
    if v ≠ "" then coerceValue pos neg v
    else if isRecent then "no data" else "stale data"
  | none => if isRecent then "no data" else "stale data"

/-- The ICMP signal of a host (lines 346–408): first item matching the
disjunctive predicate, `"not configured"` when none matches. -/
def icmpStatusOf (items : List Item) (now : Int) : String :=
  match items.find? icmpFindPred with
  | some it => resolveItemStatus "responding" "no response" it now
  | none => "not configured"

/-- The agent signal of a host (lines 411–473). -/
def agentStatusOf (items : List Item) (now : Int) : String :=
  match items.find? agentFindPred with
  | some it => resolveItemStatus "available" "unavailable" it now
  | none => "not configured"

/-- `parseInt(iface.available || "0")` of the interface scans. -/
def ifaceParsedVal (iface : Interface) : Option Int :=
  parseIntJs (jsOrStr iface.available "0")

/-- One step of the hosts-endpoint interface scan (lines 312–318):
`if (val === 1) hasAvailableInterface = true; else if (val === 2)
hasUnavailableInterface = true;` with no early exit. -/
def ifaceStepHosts (acc : Bool × Bool) (iface : Interface) : Bool × Bool :=
  let val := ifaceParsedVal iface
  if val = some 1 then (true, acc.2)
  else if val = some 2 then (acc.1, true)
  else acc

/-- The hosts-endpoint interface scan: `(hasAvailableInterface,
hasUnavailableInterface)` after the loop. -/
def interfaceScanHosts (ifaces : List Interface) : Bool × Bool :=
  ifaces.foldl ifaceStepHosts (false, false)

/-- The metrics-endpoint interface scan (lines 786–798), which `break`s
as soon as an available interface is seen. -/
def interfaceScanMetrics (acc : Bool × Bool) : List Interface → Bool × Bool
  | [] => acc
  | iface :: rest =>
    let val := ifaceParsedVal iface
    if val = some 1 then (true, acc.2)
    else if val = some 2 then interfaceScanMetrics (acc.1, true) rest
    else interfaceScanMetrics acc rest

/-- The interface contribution to the availability score (lines 500–505
and 815–817). -/
def ifaceContribution (p : Bool × Bool) : Int :=
  if p.1 then 1 else if p.2 then -1 else 0

/-!
The availability reconciler: the weighted score of the hosts endpoint
(lines 477–515) and of the metrics endpoint (lines 800–826).  The source
accumulates into a mutable `score` initialised to `0` through four
independent `if`/`else if` blocks; the accumulation is embedded as the
corresponding sequence of lets.
-/

/-- The availability score of the hosts endpoint (lines 477–505): the
source initialises `availabilityScore = 0` and each of the four
`if`/`else if` blocks adds or subtracts its weight with `+=`/`-=`; the
four contributions are independent, so the accumulation is embedded as
their sum. -/
def availabilityScoreHosts (direct icmp agent : String) (hasAv hasUn : Bool) : Int :=
  (if direct = "responding" then 3 else if direct = "no response" then -3 else 0)
  + (if icmp = "responding" then 2 else if icmp = "no response" then -2 else 0)
  + (if agent = "available" then 2 else if agent = "unavailable" then -2 else 0)
  + (if hasAv then 1 else if hasUn then -1 else 0)

/-- The final availability verdict of the hosts endpoint (lines 507–515). -/
def availabilityStatusHosts (direct icmp agent : String) (hasAv hasUn : Bool) : String :=
  let score := availabilityScoreHosts direct icmp agent hasAv hasUn
  if score > 0 then "available" else if score < 0 then "unavailable" else "unknown"

/-- The metric score of the metrics endpoint (lines 800–817), textually
the same accumulation as the hosts endpoint's, embedded the same way. -/
def metricScoreOf (direct icmp agent : String) (hasAv hasUn : Bool) : Int :=
  (if direct = "responding" then 3 else if direct = "no response" then -3 else 0)
  + (if icmp = "responding" then 2 else if icmp = "no response" then -2 else 0)
  + (if agent = "available" then 2 else if agent = "unavailable" then -2 else 0)
  + (if hasAv then 1 else if hasUn then -1 else 0)

/-- The final metrics status of the metrics endpoint (lines 819–826). -/
def metricStatusOf (direct icmp agent : String) (hasAv hasUn : Bool) : String :=
  let score := metricScoreOf direct icmp agent hasAv hasUn
  if score > 0 then "available" else if score < 0 then "unavailable" else "unknown"

/-- The observations about one host that feed its verdict. -/
structure HostObs where
  ip : Option String
  probe : ProbeOutcome
  items : List Item
  interfaces : List Interface
deriving DecidableEq, Repr

/-- The per-host availability pipeline of the hosts endpoint: probe,
item signals and interface scan fused by the weighted score. -/
def hostVerdict (isWindows : Bool) (now : Int) (h : HostObs) : String :=
  let scan := interfaceScanHosts h.interfaces
  availabilityStatusHosts
    (directPingStatusOf h.ip isWindows h.probe)
    (icmpStatusOf h.items now)
    (agentStatusOf h.items now)
    scan.1 scan.2

/-- The batch enrichment of the hosts endpoint: one independent pipeline
per host (`hosts.map` under `Promise.all`). -/
def batchVerdicts (isWindows : Bool) (now : Int) (hs : List HostObs) : List String :=
  hs.map (hostVerdict isWindows now)

/-- Embedding of `parseItemValue` (lines 57–61): `null`/`undefined`/empty
give `0`; a `NaN` parse gives `0`; otherwise the parsed number. -/
def parseItemValue (value : Option String) : JsNum :=
  match value with
  | none => .finite 0
  | some s =>
    if s = "" then .finite 0
    else
      match parseFloatJs s with
      | some n => n
      | none => .finite 0

/-!
The RPC client `zabbixApiRequest` (lines 17–43): the HTTP response is
modelled by its status, status text, and decoded JSON-RPC envelope
(an optional error object plus a result).  A thrown `Error` is modelled
as the `error` case of `Except` carrying the message string.
-/

/-- The JSON-RPC error object of a response envelope: `data` may be
absent, `message` is present. -/
structure RpcError where
  data : Option String
  message : String
deriving DecidableEq, Repr

/-- An HTTP response to a JSON-RPC call, already decoded. -/
structure RpcResponse (α : Type) where
  status : Nat
  statusText : String
  error : Option RpcError
  result : α

/-- `Response.ok` of the fetch API: status in the 2xx range. -/
def respOk (status : Nat) : Bool :=
  200 ≤ status && status < 300

/-- Embedding of `zabbixApiRequest` (lines 17–43): throw on non-2xx
status; then throw on an envelope error, composing the message as
`error.data || error.message`; otherwise return the result. -/
def zabbixApiRequest {α : Type} (resp : RpcResponse α) : Except String α :=
  if ¬ respOk resp.status then
    .error ("Zabbix API request failed: " ++ resp.statusText)
  else
    match resp.error with
    | some e => .error ("Zabbix API error: " ++ jsOrStr e.data e.message)
    | none => .ok resp.result

/-!
The problems endpoint (lines 857–954): fetch problems, collect the
trigger ids referenced, make at most one batched `trigger.get` call, and
map every problem to a formatted record, substituting the `"Unknown"`
sentinel for any problem whose trigger has no host entry.
-/

/-- One host record attached to a trigger by `selectHosts`. -/
structure TriggerHostRec where
  name : Option String
  host : Option String
deriving DecidableEq, Repr

/-- One trigger returned by the batched `trigger.get` call. -/
structure Trigger where
  triggerid : String
  hosts : List TriggerHostRec
deriving DecidableEq, Repr

/-- One problem event returned by `problem.get`. -/
structure Problem where
  eventid : String
  objectid : String
  name : String
  severity : String
  acknowledged : String
  clock : String
  r_eventid : Option String
deriving DecidableEq, Repr

/-- The host information stored per trigger id. -/
structure HostRef where
  hostname : String
  host : String
deriving DecidableEq, Repr

/-- One formatted problem of the endpoint's response. -/
structure FormattedProblem where
  eventid : String
  name : String
  severity : Option Int
  hostname : String
  host : String
  acknowledged : String
  clock : String
  resolved : Bool
deriving DecidableEq, Repr

/-- `problems.map((p) => p.objectid)` (line 897): the trigger ids sent to
the batched lookup, one per problem, duplicates retained. -/
def triggerIdsOf (problems : List Problem) : List String :=
  problems.map (fun p => p.objectid)

/-- Embedding of the `triggers.forEach` loop building `triggerHostMap`
(lines 919–926): a trigger with at least one host stores the first
host's name and technical name (each falling back to `"Unknown"` when
falsy); a trigger with no hosts stores nothing.  Entries are prepended so
that `List.lookup` finds the most recent assignment, matching property
overwrite in a JavaScript object. -/
def triggerStep (m : List (String × HostRef)) (t : Trigger) : List (String × HostRef) :=
  match t.hosts with
  | [] => m
  | h :: _ => (t.triggerid, ⟨jsOrStr h.name "Unknown", jsOrStr h.host "Unknown"⟩) :: m

/-- The map built by the `triggers.forEach` loop. -/
def buildTriggerHostMap (triggers : List Trigger) : List (String × HostRef) :=
  triggers.foldl triggerStep []

/-- Embedding of the `problems.map` body (lines 933–947):
`triggerHostMap[problem.objectid] || { hostname: 'Unknown', host:
'Unknown' }`, severity through `parseInt`, and `r_eventid ? true :
false` (only the empty string is a falsy string). -/
def formatProblem (m : List (String × HostRef)) (p : Problem) : FormattedProblem :=
  let hostInfo := (List.lookup p.objectid m).getD ⟨"Unknown", "Unknown"⟩
  { eventid := p.eventid
    name := p.name
    severity := parseIntJs p.severity
    hostname := hostInfo.hostname
    host := hostInfo.host
    acknowledged := p.acknowledged
    clock := p.clock
    resolved := match p.r_eventid with | some s => s ≠ "" | none => false }

/-- Embedding of the problems route body after `problem.get` (lines
896–947), abstracted over the outcome of the single batched
`trigger.get` call; returns the formatted problems together with the
number of `trigger.get` calls issued.  The call happens exactly when the
id list is non-empty; a failing call is caught and leaves the map empty
(lines 927–929). -/
def problemsRoute (problems : List Problem) (triggerFetch : Except String (List Trigger)) :
    List FormattedProblem × Nat :=
  let triggerIds := triggerIdsOf problems
  let mapAndCalls : List (String × HostRef) × Nat :=
    if triggerIds.length > 0 then
      match triggerFetch with
      | .ok ts => (buildTriggerHostMap ts, 1)
      | .error _ => ([], 1)
    else ([], 0)
  (problems.map (formatProblem mapAndCalls.1), mapAndCalls.2)

/-!
Helper lemmas shared by the claim theorems.
-/

/-- `List.find?` returns the first satisfying element: a block of
non-matching items never shadows a later match. -/
theorem find?_first_match {α : Type} (p : α → Bool) (pre : List α) (it : α) (post : List α)
    (hit : p it = true) (hpre : ∀ j ∈ pre, p j = false) :
    (pre ++ it :: post).find? p = some it := by
  induction pre with
  | nil => simp [List.find?_cons_of_pos, hit]
  | cons j t ih =>
    have hj : p j = false := hpre j (List.mem_cons_self j t)
    simp only [List.cons_append, List.find?_cons, hj]
    exact ih fun x hx => hpre x (List.mem_cons_of_mem j hx)

/-- The hosts-endpoint interface scan computes, independently in each
component, whether any interface parses to flag `1` resp. flag `2`. -/
theorem interfaceScanHosts_foldl (l : List Interface) (acc : Bool × Bool) :
    l.foldl ifaceStepHosts acc =
      (acc.1 || l.any fun f => ifaceParsedVal f = some 1,
       acc.2 || l.any fun f => ifaceParsedVal f = some 2) := by
  induction l generalizing acc with
  | nil => simp
  | cons f t ih =>
    simp only [List.foldl_cons, List.any_cons, ih, ifaceStepHosts]
    by_cases h1 : ifaceParsedVal f = some 1
    · simp [h1]
    · by_cases h2 : ifaceParsedVal f = some 2 <;>
        simp [h1, h2, Bool.or_assoc, Bool.or_comm, Bool.or_left_comm]

/-- Characterisation of `interfaceScanHosts` from the empty accumulator. -/
theorem interfaceScanHosts_spec (l : List Interface) :
    interfaceScanHosts l =
      (l.any fun f => ifaceParsedVal f = some 1,
       l.any fun f => ifaceParsedVal f = some 2) := by
  simp [interfaceScanHosts, interfaceScanHosts_foldl]

/-- When no interface has flag `1`, the metrics scan never breaks and
accumulates exactly the flag-`2` information. -/
theorem interfaceScanMetrics_no_one (l : List Interface) (acc : Bool × Bool)
    (h : ∀ f ∈ l, ifaceParsedVal f ≠ some 1) :
    interfaceScanMetrics acc l =
      (acc.1, acc.2 || l.any fun f => ifaceParsedVal f = some 2) := by
  induction l generalizing acc with
  | nil => simp [interfaceScanMetrics]
  | cons f t ih =>
    have hf : ifaceParsedVal f ≠ some 1 := h f (List.mem_cons_self f t)
    have ht : ∀ x ∈ t, ifaceParsedVal x ≠ some 1 := fun x hx => h x (List.mem_cons_of_mem f hx)
    simp only [interfaceScanMetrics, List.any_cons]
    by_cases h2 : ifaceParsedVal f = some 2 <;>
      simp [hf, h2, ih _ ht, Bool.or_assoc, Bool.or_comm, Bool.or_left_comm]

/-- When some interface has flag `1`, the metrics scan reports an
available interface. -/
theorem interfaceScanMetrics_has_one (l : List Interface) (acc : Bool × Bool)
    (h : ∃ f ∈ l, ifaceParsedVal f = some 1) :
    (interfaceScanMetrics acc l).1 = true := by
  induction l generalizing acc with
  | nil => simp at h
  | cons f t ih =>
    simp only [interfaceScanMetrics]
    by_cases h1 : ifaceParsedVal f = some 1
    · simp [h1]
    · have : ∃ x ∈ t, ifaceParsedVal x = some 1 := by
        rcases h with ⟨x, hx, hvx⟩
        rcases List.mem_cons.mp hx with rfl | hxt
        · exact absurd hvx h1
        · exact ⟨x, hxt, hvx⟩
      by_cases h2 : ifaceParsedVal f = some 2 <;> simp [h1, h2, ih _ this]

/-- Folding `triggerStep` over triggers none of which both carry the key
and own a host leaves the lookup for that key unchanged. -/
theorem lookup_foldl_triggerStep_none (k : String) (ts : List Trigger)
    (h : ∀ t ∈ ts, t.triggerid = k → t.hosts = []) :
    ∀ m : List (String × HostRef), List.lookup k m = none →
      List.lookup k (ts.foldl triggerStep m) = none := by
  induction ts with
  | nil => intro m hm; simpa using hm
  | cons t rest ih =>
    intro m hm
    have hrest : ∀ t' ∈ rest, t'.triggerid = k → t'.hosts = [] :=
      fun t' ht' => h t' (List.mem_cons_of_mem t ht')
    simp only [List.foldl_cons]
    rcases hhosts : t.hosts with _ | ⟨h0, hs⟩
    · refine ih hrest (triggerStep m t) ?_
      simpa [triggerStep, hhosts] using hm
    · have hne : t.triggerid ≠ k := by
        intro hk
        exact absurd (h t (List.mem_cons_self t rest) hk) (by simp [hhosts])
      have hbeq : (k == t.triggerid) = false := by
        simp [Ne.symm hne]
      refine ih hrest (triggerStep m t) ?_
      simp [triggerStep, hhosts, List.lookup, hbeq, hm]

/-- A trigger list in which every trigger carrying a given id has no
hosts contributes no map entry for that id. -/
theorem lookup_buildTriggerHostMap_none (ts : List Trigger) (k : String)
    (h : ∀ t ∈ ts, t.triggerid = k → t.hosts = []) :
    List.lookup k (buildTriggerHostMap ts) = none :=
  lookup_foldl_triggerStep_none k ts h [] rfl

/-!
The claim theorems.
-/

/-- C1: for every host, the availability verdict equals the sign of a
weighted score with fixed weights — DirectProbe responding +3 /
no-response −3, RemoteICMP responding +2 / no-response −2, RemoteAgent
available +2 / unavailable −2, InterfaceFlag available +1 / unavailable
−1, every other signal state 0 — with verdict `available` for a positive
score, `unavailable` for a negative one and `unknown` for exactly 0; in
particular, all four signals unknown/not-configured give `unknown`.  The
metrics endpoint computes the same function as the hosts endpoint. -/
theorem verdict_is_sign_of_weighted_score :
    ∀ (direct icmp agent : String) (hasAv hasUn : Bool),
      availabilityStatusHosts direct icmp agent hasAv hasUn =
        (if availabilityScoreHosts direct icmp agent hasAv hasUn > 0 then "available"
         else if availabilityScoreHosts direct icmp agent hasAv hasUn < 0 then "unavailable"
         else "unknown")
      ∧ availabilityScoreHosts direct icmp agent hasAv hasUn =
          (if direct = "responding" then 3 else if direct = "no response" then -3 else 0)
          + (if icmp = "responding" then 2 else if icmp = "no response" then -2 else 0)
          + (if agent = "available" then 2 else if agent = "unavailable" then -2 else 0)
          + (if hasAv then 1 else if hasUn then -1 else 0)
      ∧ metricStatusOf direct icmp agent hasAv hasUn =
          availabilityStatusHosts direct icmp agent hasAv hasUn
      ∧ ((direct ≠ "responding" ∧ direct ≠ "no response") →
         (icmp ≠ "responding" ∧ icmp ≠ "no response") →
         (agent ≠ "available" ∧ agent ≠ "unavailable") →
         hasAv = false → hasUn = false →
         availabilityStatusHosts direct icmp agent hasAv hasUn = "unknown") := by
  intro d i a hAv hUn
  refine ⟨rfl, rfl, rfl, ?_⟩
  rintro ⟨hd1, hd2⟩ ⟨hi1, hi2⟩ ⟨ha1, ha2⟩ rfl rfl
  simp [availabilityStatusHosts, availabilityScoreHosts, hd1, hd2, hi1, hi2, ha1, ha2]

/-- Witness for C1: all four signals in an unknown/not-configured state
produce the `unknown` verdict. -/
theorem verdict_is_sign_of_weighted_score_witness :
    availabilityStatusHosts "unknown" "not configured" "no data" false false = "unknown" :=
  (verdict_is_sign_of_weighted_score "unknown" "not configured" "no data" false false).2.2.2
    (by decide) (by decide) (by decide) rfl rfl

/-- C5 counterexample: with the code's weights 3+2+2+1 the maximal score
is 8, not the claimed 9, and the minimal one is −8, not −9. -/
theorem max_score_is_eight_not_nine :
    availabilityScoreHosts "responding" "responding" "available" true false = 8
    ∧ (8 : Int) ≠ 9
    ∧ availabilityScoreHosts "no response" "no response" "unavailable" false true = -8
    ∧ (-8 : Int) ≠ -9 := by decide

/-- C5 amended: when all four signals are maximally positive the verdict
is `available` with score 8; when all four are maximally negative it is
`unavailable` with score −8; the metrics endpoint agrees. -/
theorem extreme_signals_extreme_verdicts :
    availabilityScoreHosts "responding" "responding" "available" true false = 8
    ∧ availabilityStatusHosts "responding" "responding" "available" true false = "available"
    ∧ availabilityScoreHosts "no response" "no response" "unavailable" false true = -8
    ∧ availabilityStatusHosts "no response" "no response" "unavailable" false true = "unavailable"
    ∧ metricScoreOf "responding" "responding" "available" true false = 8
    ∧ metricStatusOf "no response" "no response" "unavailable" false true = "unavailable" := by
  decide

/-- An enabled item whose exact canonical key is `icmpping` with last
value `"0"` (the precedence scenario of the spec). -/
def icmpExactKeyItem : Item :=
  { key_ := some "icmpping", name := some "ICMP ping", lastvalue := some "0",
    status := "0", lastclock := some "0" }

/-- An enabled item matched only through its display name containing
`"icmp response"`, with last value `"1"`. -/
def icmpNameMatchItem : Item :=
  { key_ := some "custom.check", name := some "ICMP response time", lastvalue := some "1",
    status := "0", lastclock := some "0" }

/-- C2 counterexample: the matcher has no precedence between exact-key
and name-synonym matches — when the name-match item precedes the
exact-key `icmpping` item in the collection, it is selected and the
signal is `responding`, not the claimed `no response`. -/
theorem icmp_matcher_order_dependent :
    icmpStatusOf [icmpNameMatchItem, icmpExactKeyItem] 0 = "responding"
    ∧ ("responding" : String) ≠ "no response" := by decide

/-- C2 amended: the matcher is a single first-match scan in collection
order over one disjunction of the key and name criteria, so selection
depends on item order, not on criterion strength: the first enabled item
matching any criterion wins; with the exact-key item first the signal is
`no response`, with the name-match item first it is `responding`. -/
theorem icmp_matcher_first_disjunctive_match :
    (∀ (pre post : List Item) (it : Item) (now : Int),
        icmpFindPred it = true → (∀ j ∈ pre, icmpFindPred j = false) →
        icmpStatusOf (pre ++ it :: post) now =
          resolveItemStatus "responding" "no response" it now)
    ∧ icmpStatusOf [icmpExactKeyItem, icmpNameMatchItem] 0 = "no response"
    ∧ icmpStatusOf [icmpNameMatchItem, icmpExactKeyItem] 0 = "responding" := by
  refine ⟨?_, by decide, by decide⟩
  intro pre post it now hit hpre
  simp [icmpStatusOf, find?_first_match icmpFindPred pre it post hit hpre]

/-- Witness for C2's amended theorem at a concrete collection. -/
theorem icmp_matcher_first_disjunctive_match_witness :
    icmpStatusOf [icmpNameMatchItem, icmpExactKeyItem] 100 = "responding" := by
  have h := icmp_matcher_first_disjunctive_match.1 [] [icmpExactKeyItem]
    icmpNameMatchItem 100 (by decide) (by simp)
  exact h.trans (by decide)

/-- C6 counterexample: a probe whose execution fails (for example, no
ping capability) yields the DirectProbe signal `no response`, which
contributes −3 to the score — not the claimed `unknown` contributing 0. -/
theorem probe_exec_failure_scores_negative :
    directPingStatusOf (some "192.168.1.10") false ProbeOutcome.execFailure = "no response"
    ∧ directPingStatusOf (some "192.168.1.10") false ProbeOutcome.execFailure ≠ "unknown"
    ∧ availabilityScoreHosts "no response" "unknown" "unknown" false false = -3
    ∧ (-3 : Int) ≠ 0 := by decide

/-- C6 amended: a failed probe execution is caught inside the prober and
reported as `false`, so the prober never raises and the batch is a map
of independent per-host pipelines that a failing host cannot abort; but
the host's DirectProbe signal becomes `no response` (contributing −3),
indistinguishable from an unreachable host, rather than `unknown`; for
any probe outcome the signal is one of `responding`, `no response`,
`no ip` — the `error` state is unreachable. -/
theorem probe_failure_nonfatal_but_no_response :
    (∀ isWindows : Bool, pingHost isWindows ProbeOutcome.execFailure = false)
    ∧ (∀ (isWindows : Bool) (a : String), a ≠ "" → a ≠ "N/A" →
        directPingStatusOf (some a) isWindows ProbeOutcome.execFailure = "no response")
    ∧ (∀ (ip : Option String) (isWindows : Bool) (o : ProbeOutcome),
        directPingStatusOf ip isWindows o = "responding" ∨
        directPingStatusOf ip isWindows o = "no response" ∨
        directPingStatusOf ip isWindows o = "no ip")
    ∧ availabilityScoreHosts "no response" "unknown" "unknown" false false = -3
    ∧ (∀ (isWindows : Bool) (now : Int) (xs ys : List HostObs) (h : HostObs),
        batchVerdicts isWindows now (xs ++ h :: ys) =
          batchVerdicts isWindows now xs
            ++ hostVerdict isWindows now h :: batchVerdicts isWindows now ys) := by
  refine ⟨fun _ => rfl, ?_, ?_, by decide, ?_⟩
  · intro isWindows a h1 h2
    simp [directPingStatusOf, h1, h2, pingHost]
  · intro ip isWindows o
    rcases ip with _ | a
    · simp [directPingStatusOf]
    · simp only [directPingStatusOf]
      by_cases hc : a ≠ "" ∧ a ≠ "N/A"
      · by_cases hp : pingHost isWindows o = true <;>
          simp [hc.1, hc.2, hp]
      · rcases not_and_or.mp hc with hce | hcn
        · simp [not_not.mp hce]
        · simp [not_not.mp hcn]
  · intro isWindows now xs ys h
    simp [batchVerdicts]

/-- Witness for C6's amended theorem: a concrete exec failure gives the
`no response` signal. -/
theorem probe_failure_nonfatal_but_no_response_witness :
    directPingStatusOf (some "10.0.0.5") false ProbeOutcome.execFailure = "no response" :=
  probe_failure_nonfatal_but_no_response.2.1 false "10.0.0.5" (by decide) (by decide)

/-- C3: staleness is classified against the fixed 600-second threshold
on `now − timestamp`, and an item with no timestamp parses to timestamp
0, making its age maximal; an item whose value is present is resolved
from that value regardless of age, while a valueless item yields
`no data` when fresh and `stale data` when older than 600 seconds. -/
theorem staleness_prefers_present_value :
    (∀ (pos neg : String) (it : Item) (now : Int) (v : String),
        it.lastvalue = some v → v ≠ "" →
        resolveItemStatus pos neg it now = coerceValue pos neg v)
    ∧ (∀ (pos neg : String) (it : Item) (now t : Int),
        (it.lastvalue = none ∨ it.lastvalue = some "") →
        parseIntJs (jsOrStr it.lastclock "0") = some t → now - t > 600 →
        resolveItemStatus pos neg it now = "stale data")
    ∧ (∀ (pos neg : String) (it : Item) (now t : Int),
        (it.lastvalue = none ∨ it.lastvalue = some "") →
        parseIntJs (jsOrStr it.lastclock "0") = some t → now - t < 600 →
        resolveItemStatus pos neg it now = "no data")
    ∧ (∀ it : Item, it.lastclock = none → parseIntJs (jsOrStr it.lastclock "0") = some 0)
    ∧ (∀ (it : Item) (now : Int), it.lastclock = none →
        itemIsRecent it now = decide (now - 0 < 600)) := by
  refine ⟨?_, ?_, ?_, ?_, ?_⟩
  · intro pos neg it now v h1 h2
    simp [resolveItemStatus, h1, h2]
  · intro pos neg it now t hv hclk hage
    have hrec : itemIsRecent it now = false := by
      simp only [itemIsRecent, hclk]
      simpa using by omega
    rcases hv with h | h <;> simp [resolveItemStatus, h, hrec]
  · intro pos neg it now t hv hclk hage
    have hrec : itemIsRecent it now = true := by
      simp only [itemIsRecent, hclk]
      simpa using hage
    rcases hv with h | h <;> simp [resolveItemStatus, h, hrec]
  · intro it h
    rw [h]
    decide
  · intro it now h
    simp only [itemIsRecent, h]
    rfl

/-- The precedence-scenario item that is older than the threshold but
carries the value `"0"`. -/
def itemStaleWithValue : Item :=
  { key_ := some "icmpping", name := some "ICMP ping", lastvalue := some "0",
    status := "0", lastclock := some "100" }

/-- An old item carrying no value at all. -/
def itemStaleNoValue : Item :=
  { key_ := some "icmpping", name := some "ICMP ping", lastvalue := none,
    status := "0", lastclock := some "100" }

/-- Witness for C3: an item 9900 seconds old with value `"0"` resolves
to `no response`, one with no value to `stale data`; the valueless item
at age 100 gives `no data`. -/
theorem staleness_prefers_present_value_witness :
    resolveItemStatus "responding" "no response" itemStaleWithValue 10000 = "no response"
    ∧ resolveItemStatus "responding" "no response" itemStaleNoValue 10000 = "stale data"
    ∧ resolveItemStatus "responding" "no response" itemStaleNoValue 200 = "no data" := by
  refine ⟨?_, ?_, ?_⟩
  · have h := staleness_prefers_present_value.1 "responding" "no response"
      itemStaleWithValue 10000 "0" rfl (by decide)
    exact h.trans (by decide)
  · exact staleness_prefers_present_value.2.1 "responding" "no response"
      itemStaleNoValue 10000 100 (Or.inl rfl) (by decide) (by decide)
  · exact staleness_prefers_present_value.2.2.1 "responding" "no response"
      itemStaleNoValue 200 100 (Or.inl rfl) (by decide) (by decide)

/-- C4: for both the ICMP and agent signals, a present raw value is
coerced numeric-parse-first — a positive parse gives the positive label,
a non-positive parse the negative label — and only on parse failure is
the token match applied: `"1"`/`"up"` positive, `"0"`/`"down"` negative
(the token compare on `up`/`down` is case-insensitive through
`toLowerCase`), anything else `unknown`. -/
theorem value_coercion_numeric_first :
    ∀ v : String,
      (∀ q : JsNum, parseFloatJs (jsTrim v) = some q →
          coerceValue "responding" "no response" v =
            (if q.isPos then "responding" else "no response")
          ∧ coerceValue "available" "unavailable" v =
            (if q.isPos then "available" else "unavailable"))
      ∧ (parseFloatJs (jsTrim v) = none →
          ((jsTrim v = "1" ∨ jsToLower (jsTrim v) = "up") →
              coerceValue "responding" "no response" v = "responding"
              ∧ coerceValue "available" "unavailable" v = "available")
          ∧ (¬ (jsTrim v = "1" ∨ jsToLower (jsTrim v) = "up") →
             (jsTrim v = "0" ∨ jsToLower (jsTrim v) = "down") →
              coerceValue "responding" "no response" v = "no response"
              ∧ coerceValue "available" "unavailable" v = "unavailable")
          ∧ (¬ (jsTrim v = "1" ∨ jsToLower (jsTrim v) = "up") →
             ¬ (jsTrim v = "0" ∨ jsToLower (jsTrim v) = "down") →
              coerceValue "responding" "no response" v = "unknown"
              ∧ coerceValue "available" "unavailable" v = "unknown")) := by
  intro v
  constructor
  · intro q hq
    constructor <;> simp [coerceValue, hq]
  · intro hq
    refine ⟨?_, ?_, ?_⟩
    · intro h
      rcases h with h | h
      · rw [h] at hq
        exact absurd hq (by decide)
      · constructor <;> simp [coerceValue, hq, h]
    · intro h1 h2
      rcases not_or.mp h1 with ⟨ha, hb⟩
      rcases h2 with h | h
      · rw [h] at hq
        exact absurd hq (by decide)
      · constructor <;> simp [coerceValue, hq, ha, hb, h]
    · intro h1 h2
      rcases not_or.mp h1 with ⟨ha, hb⟩
      rcases not_or.mp h2 with ⟨hc, hd⟩
      constructor <;> simp [coerceValue, hq, ha, hb, hc, hd]

/-- Witness for C4: the token `"up"` resolves positively on parse
failure, the numeric `"0.0"` resolves negatively through the numeric
branch, and an unparseable token resolves to `unknown`. -/
theorem value_coercion_numeric_first_witness :
    coerceValue "responding" "no response" "up" = "responding"
    ∧ coerceValue "available" "unavailable" "0.0" = "unavailable"
    ∧ coerceValue "responding" "no response" "maybe" = "unknown" := by
  refine ⟨?_, ?_, ?_⟩
  · exact ((((value_coercion_numeric_first "up").2 (by decide)).1) (Or.inr (by decide))).1
  · have h := ((value_coercion_numeric_first "0.0").1 (JsNum.finite (mkRat 0 1)) (by decide)).2
    exact h.trans (by decide)
  · exact (((value_coercion_numeric_first "maybe").2 (by decide)).2.2 (by decide) (by decide)).1

/-- C8: every metrics numeric field goes through `parseItemValue`, a
total parse-or-zero rule: an absent, empty or unparseable last value
yields 0 and never an error, while a parseable numeric string yields its
numeric value — in particular `"37.5"` yields 37.5, not 0. -/
theorem metrics_parse_or_zero :
    parseItemValue none = JsNum.finite 0
    ∧ parseItemValue (some "") = JsNum.finite 0
    ∧ (∀ s : String, parseFloatJs s = none → parseItemValue (some s) = JsNum.finite 0)
    ∧ (∀ (s : String) (q : JsNum), parseFloatJs s = some q → parseItemValue (some s) = q)
    ∧ parseItemValue (some "37.5") = JsNum.finite (mkRat 75 2) := by
  refine ⟨rfl, rfl, ?_, ?_, by decide⟩
  · intro s h
    by_cases hs : s = "" <;> simp [parseItemValue, hs, h]
  · intro s q h
    have hs : s ≠ "" := by
      intro he
      have hne : parseFloatJs "" = none := by decide
      rw [he, hne] at h
      exact Option.noConfusion h
    simp [parseItemValue, hs, h]

/-- Witness for C8: the unparseable value `"abc"` yields 0. -/
theorem metrics_parse_or_zero_witness :
    parseItemValue (some "abc") = JsNum.finite 0 :=
  metrics_parse_or_zero.2.2.1 "abc" (by decide)

/-- A problem referencing trigger `t1`. -/
def problemAlpha : Problem :=
  { eventid := "e1", objectid := "t1", name := "disk full", severity := "4",
    acknowledged := "0", clock := "1700000000", r_eventid := none }

/-- A second problem referencing the same trigger `t1`. -/
def problemBeta : Problem :=
  { eventid := "e2", objectid := "t1", name := "cpu high", severity := "2",
    acknowledged := "0", clock := "1700000100", r_eventid := none }

/-- C7 counterexample: the id list sent to the batched lookup is built
by mapping every problem's trigger id, so two problems sharing one
trigger produce the list `["t1", "t1"]` — not the distinct collection
`["t1"]` the claim describes. -/
theorem trigger_ids_not_deduplicated :
    triggerIdsOf [problemAlpha, problemBeta] = ["t1", "t1"]
    ∧ (triggerIdsOf [problemAlpha, problemBeta]).length = 2
    ∧ ((triggerIdsOf [problemAlpha, problemBeta]).dedup).length = 1
    ∧ triggerIdsOf [problemAlpha, problemBeta] ≠ ["t1"] := by decide

/-- C7 amended: listing problems collects the trigger identifiers one
per problem (duplicates retained, not deduplicated) and issues exactly
one batched trigger lookup when there is at least one problem — never
one lookup per problem and never more than one; the first associated
host's name is attached to each problem; a failed lookup or a trigger
with no hosts yields the `"Unknown"` sentinel; every fetched problem
appears in the result. -/
theorem problem_lookup_batched_and_total :
    (∀ (ps : List Problem) (tf : Except String (List Trigger)),
        ps ≠ [] → (problemsRoute ps tf).2 = 1)
    ∧ (∀ (ps : List Problem) (tf : Except String (List Trigger)),
        (problemsRoute ps tf).2 ≤ 1)
    ∧ (∀ (ps : List Problem) (tf : Except String (List Trigger)),
        (problemsRoute ps tf).1.length = ps.length)
    ∧ (∀ ps : List Problem, triggerIdsOf ps = ps.map fun p => p.objectid)
    ∧ (∀ (ps : List Problem) (msg : String),
        (problemsRoute ps (.error msg)).1 = ps.map (formatProblem []))
    ∧ (∀ p : Problem,
        (formatProblem [] p).hostname = "Unknown" ∧ (formatProblem [] p).host = "Unknown")
    ∧ (∀ (ts : List Trigger) (p : Problem),
        (∀ t ∈ ts, t.triggerid = p.objectid → t.hosts = []) →
        (formatProblem (buildTriggerHostMap ts) p).hostname = "Unknown"
        ∧ (formatProblem (buildTriggerHostMap ts) p).host = "Unknown")
    ∧ (∀ (t : Trigger) (h : TriggerHostRec) (hs : List TriggerHostRec) (p : Problem),
        t.hosts = h :: hs → p.objectid = t.triggerid →
        (formatProblem (buildTriggerHostMap [t]) p).hostname = jsOrStr h.name "Unknown"
        ∧ (formatProblem (buildTriggerHostMap [t]) p).host = jsOrStr h.host "Unknown") := by
  refine ⟨?_, ?_, ?_, fun _ => rfl, ?_, ?_, ?_, ?_⟩
  · intro ps tf h
    have hlen : 0 < (triggerIdsOf ps).length := by
      simpa [triggerIdsOf, List.length_pos] using h
    cases tf <;> simp [problemsRoute, hlen]
  · intro ps tf
    by_cases hlen : (triggerIdsOf ps).length > 0 <;>
      cases tf <;> simp [problemsRoute, hlen]
  · intro ps tf
    simp [problemsRoute]
  · intro ps msg
    rcases ps with _ | ⟨p, ps⟩ <;> simp [problemsRoute, triggerIdsOf]
  · intro p
    constructor <;> simp [formatProblem, List.lookup]
  · intro ts p h
    have hl := lookup_buildTriggerHostMap_none ts p.objectid h
    constructor <;> simp [formatProblem, hl]
  · intro t h hs p hh hp
    constructor <;>
      simp [formatProblem, buildTriggerHostMap, triggerStep, hh, hp, List.lookup]

/-- Witness for C7's amended theorem: two problems make exactly one
lookup call, and a trigger owning no host yields the sentinel. -/
theorem problem_lookup_batched_and_total_witness :
    (problemsRoute [problemAlpha, problemBeta] (.ok [])).2 = 1
    ∧ (formatProblem (buildTriggerHostMap [{ triggerid := "t9", hosts := [] }])
        problemAlpha).hostname = "Unknown" := by
  constructor
  · exact problem_lookup_batched_and_total.1 [problemAlpha, problemBeta] (.ok []) (by decide)
  · exact (problem_lookup_batched_and_total.2.2.2.2.2.2.1
      [{ triggerid := "t9", hosts := [] }] problemAlpha (by decide)).1

/-- C9: an RPC call fails with the transport-error message exactly when
the HTTP status is outside the 2xx range; with a 2xx status it fails
with the protocol-error message exactly when the envelope carries an
error object, composing the message from the error's `data` field with
fallback to `message` when `data` is absent or empty; otherwise it
returns the envelope's result. -/
theorem rpc_error_classification :
    ∀ (α : Type) (resp : RpcResponse α),
      (¬ (200 ≤ resp.status ∧ resp.status < 300) →
          zabbixApiRequest resp = .error ("Zabbix API request failed: " ++ resp.statusText))
      ∧ ((200 ≤ resp.status ∧ resp.status < 300) → ∀ e : RpcError, resp.error = some e →
          zabbixApiRequest resp =
            .error ("Zabbix API error: " ++
              match e.data with
              | some d => if d = "" then e.message else d
              | none => e.message))
      ∧ ((200 ≤ resp.status ∧ resp.status < 300) → resp.error = none →
          zabbixApiRequest resp = .ok resp.result)
      ∧ ((∃ msg, zabbixApiRequest resp = .error msg) ↔
          (¬ (200 ≤ resp.status ∧ resp.status < 300) ∨ resp.error ≠ none)) := by
  intro α resp
  have hiff : respOk resp.status = true ↔ (200 ≤ resp.status ∧ resp.status < 300) := by
    simp [respOk]
  refine ⟨?_, ?_, ?_, ?_⟩
  · intro h
    have hok : ¬ respOk resp.status = true := fun hc => h (hiff.mp hc)
    simp [zabbixApiRequest, hok]
  · intro h e he
    have hok : respOk resp.status = true := hiff.mpr h
    rcases e with ⟨d, msg⟩
    rcases d with _ | d <;> simp [zabbixApiRequest, hok, he, jsOrStr]
  · intro h he
    simp [zabbixApiRequest, hiff.mpr h, he]
  · constructor
    · rintro ⟨msg, hmsg⟩
      by_cases hok : respOk resp.status = true
      · rcases he : resp.error with _ | e
        · rw [zabbixApiRequest] at hmsg
          simp [hok, he] at hmsg
        · exact Or.inr (by simp [he])
      · exact Or.inl fun hc => hok (hiff.mpr hc)
    · rintro (h | h)
      · have hok : ¬ respOk resp.status = true := fun hc => h (hiff.mp hc)
        exact ⟨"Zabbix API request failed: " ++ resp.statusText,
          by simp [zabbixApiRequest, hok]⟩
      · rcases he : resp.error with _ | e
        · exact absurd he h
        · by_cases hok : respOk resp.status = true
          · exact ⟨"Zabbix API error: " ++ jsOrStr e.data e.message,
              by simp [zabbixApiRequest, hok, he]⟩
          · exact ⟨"Zabbix API request failed: " ++ resp.statusText,
              by simp [zabbixApiRequest, hok]⟩

/-- A 500 response with no envelope. -/
def respServerFailure : RpcResponse Nat :=
  { status := 500, statusText := "Internal Server Error", error := none, result := 0 }

/-- A 200 response whose envelope carries an error object with a detail
field. -/
def respEnvelopeError : RpcResponse Nat :=
  { status := 200, statusText := "OK",
    error := some { data := some "detail", message := "generic" }, result := 0 }

/-- A clean 200 response carrying the result 7. -/
def respClean : RpcResponse Nat :=
  { status := 200, statusText := "OK", error := none, result := 7 }

/-- Witness for C9: a 500 response is a transport error, a 2xx envelope
error is a protocol error with the `data` detail, and a clean 2xx
response returns the result. -/
theorem rpc_error_classification_witness :
    zabbixApiRequest respServerFailure =
      .error ("Zabbix API request failed: " ++ "Internal Server Error")
    ∧ zabbixApiRequest respEnvelopeError = .error ("Zabbix API error: " ++ "detail")
    ∧ zabbixApiRequest respClean = .ok 7 := by
  refine ⟨?_, ?_, ?_⟩
  · exact (rpc_error_classification Nat respServerFailure).1 (by decide)
  · exact ((rpc_error_classification Nat respEnvelopeError).2.1 (by decide)
      { data := some "detail", message := "generic" } rfl).trans
      (congrArg Except.error (by decide))
  · exact (rpc_error_classification Nat respClean).2.2.1 (by decide) rfl

/-- An interface whose availability flag is `2` (unavailable). -/
def ifaceFlagTwo : Interface := { available := some "2" }

/-- An interface whose availability flag is `1` (available). -/
def ifaceFlagOne : Interface := { available := some "1" }

/-- C10: in the interface availability scan the available flag takes
precedence — the contribution is +1 whenever some interface parses to
flag 1 (even when others are flag 2), −1 exactly when none parses to 1
and some parses to 2, and 0 otherwise; the hosts-endpoint scan and the
break-early metrics-endpoint scan contribute identically. -/
theorem interface_available_flag_precedence :
    ∀ ifaces : List Interface,
      ((∃ f ∈ ifaces, ifaceParsedVal f = some 1) →
          ifaceContribution (interfaceScanHosts ifaces) = 1)
      ∧ ((¬ ∃ f ∈ ifaces, ifaceParsedVal f = some 1) →
         (∃ f ∈ ifaces, ifaceParsedVal f = some 2) →
          ifaceContribution (interfaceScanHosts ifaces) = -1)
      ∧ ((¬ ∃ f ∈ ifaces, ifaceParsedVal f = some 1) →
         (¬ ∃ f ∈ ifaces, ifaceParsedVal f = some 2) →
          ifaceContribution (interfaceScanHosts ifaces) = 0)
      ∧ ifaceContribution (interfaceScanMetrics (false, false) ifaces) =
          ifaceContribution (interfaceScanHosts ifaces) := by
  intro ifaces
  have hspec := interfaceScanHosts_spec ifaces
  refine ⟨?_, ?_, ?_, ?_⟩
  · intro h
    have h1 : (ifaces.any fun f => ifaceParsedVal f = some 1) = true := by
      rw [List.any_eq_true]
      simpa using h
    simp [ifaceContribution, hspec, h1]
  · intro hn h2'
    have h1 : (ifaces.any fun f => ifaceParsedVal f = some 1) = false := by
      rw [List.any_eq_false]
      simpa using hn
    have h2 : (ifaces.any fun f => ifaceParsedVal f = some 2) = true := by
      rw [List.any_eq_true]
      simpa using h2'
    simp [ifaceContribution, hspec, h1, h2]
  · intro hn1 hn2
    have h1 : (ifaces.any fun f => ifaceParsedVal f = some 1) = false := by
      rw [List.any_eq_false]
      simpa using hn1
    have h2 : (ifaces.any fun f => ifaceParsedVal f = some 2) = false := by
      rw [List.any_eq_false]
      simpa using hn2
    simp [ifaceContribution, hspec, h1, h2]
  · by_cases hex : ∃ f ∈ ifaces, ifaceParsedVal f = some 1
    · have hm := interfaceScanMetrics_has_one ifaces (false, false) hex
      have h1 : (ifaces.any fun f => ifaceParsedVal f = some 1) = true := by
        rw [List.any_eq_true]
        simpa using hex
      simp [ifaceContribution, hm, hspec, h1]
    · have hall : ∀ f ∈ ifaces, ifaceParsedVal f ≠ some 1 := by
        intro f hf hv
        exact hex ⟨f, hf, hv⟩
      have hm := interfaceScanMetrics_no_one ifaces (false, false) hall
      have h1 : (ifaces.any fun f => ifaceParsedVal f = some 1) = false := by
        rw [List.any_eq_false]
        simpa using hall
      simp [ifaceContribution, hm, hspec, h1]

/-- Witness for C10: with one unavailable interface listed before one
available interface, the contribution is +1. -/
theorem interface_available_flag_precedence_witness :
    ifaceContribution (interfaceScanHosts [ifaceFlagTwo, ifaceFlagOne]) = 1 :=
  (interface_available_flag_precedence [ifaceFlagTwo, ifaceFlagOne]).1 (by decide)

end ZabbixApi

